import Mathlib

/-!
Verification development for the file comparison utility `file-compare.py`.

The program compares two files along four axes (hashes, size, byte content,
symlink/identity).  This file gives a shallow embedding of the program over an
explicit model of the filesystem and of the platform probes the program
consults, and proves or refutes the specification claims about it.

Modelling conventions:
- file contents are lists of byte values (`List Nat`, each `< 256` in practice);
- `st_mtime` is modelled as a `Nat` (only equality of timestamps is ever
  observed by the program);
- `st_dev`/`st_ino` are fused into a single `Nat` identity (`ino`), which is
  exactly what `os.path.samefile` compares;
- a Python exception propagating out of an operation is an `Except.error`;
- the standard-library helpers the program calls (`os.path.*`, `mmap.mmap`,
  `filecmp.cmp`, `hashlib`) are embedded with their documented/CPython
  semantics; `filecmp.cmp`'s result cache is omitted because on an immutable
  filesystem model the cached outcome coincides with a fresh `_do_cmp` run.
-/

set_option maxRecDepth 100000

namespace FileCompare

/-- Kinds of Python exceptions the embedded code can raise or observe. -/
inductive Err
  | fileNotFound
  | permissionDenied
  | isADirectory
  | valueError
  | keyError
  | typeError
  | ioError
  deriving DecidableEq

instance instDecEqExcept {ε α : Type} [DecidableEq ε] [DecidableEq α] :
    DecidableEq (Except ε α) := fun x y =>
  match x, y with
  | .ok a, .ok b =>
    if h : a = b then .isTrue (by simp [h]) else .isFalse (by simp [h])
  | .error a, .error b =>
    if h : a = b then .isTrue (by simp [h]) else .isFalse (by simp [h])
  | .ok _, .error _ => .isFalse (by simp)
  | .error _, .ok _ => .isFalse (by simp)

/-- A directory entry of the modelled filesystem.  `reg` is a regular file
with an identity (`ino`, standing for the `(st_dev, st_ino)` pair), byte
content, a modification timestamp and a read-permission bit.  `denied` is an
entry whose metadata cannot be read at all: every `stat`/`lstat` on it raises
`PermissionError`. -/
inductive Node
  | reg (ino : Nat) (content : List Nat) (mtime : Nat) (readable : Bool)
  | dir (ino : Nat)
  | symlink (target : String)
  | denied
  deriving DecidableEq

/-- The filesystem: a finite association of paths to entries. -/
abbrev FS := List (String × Node)

/-- Path lookup without following symlinks (the `lstat` view). -/
def lookupFS (fs : FS) (p : String) : Option Node :=
  List.lookup p fs

/-- A fully resolved filesystem object, as `os.stat` reports it. -/
inductive ResNode
  | rfile (ino : Nat) (content : List Nat) (mtime : Nat) (readable : Bool)
  | rdir (ino : Nat)
  deriving DecidableEq

/-- Symlink resolution with fuel; running out of fuel models the `ELOOP`
`OSError` of a symlink cycle. -/
def resolve (fs : FS) : Nat → String → Except Err ResNode
  | 0, _ => .error .ioError
  | fuel + 1, p =>
    match lookupFS fs p with
    | none => .error .fileNotFound
    | some (.symlink t) => resolve fs fuel t
    | some .denied => .error .permissionDenied
    | some (.reg i c m r) => .ok (.rfile i c m r)
    | some (.dir i) => .ok (.rdir i)

/-- `os.stat`: resolves symlinks; raises `FileNotFoundError` for a missing
path and `PermissionError` for a metadata-protected one. -/
def os_stat (fs : FS) (p : String) : Except Err ResNode :=
  resolve fs (fs.length + 1) p

/-- The identity (`st_dev`/`st_ino` fused) of a resolved object. -/
def resIno : ResNode → Nat
  | .rfile i _ _ _ => i
  | .rdir i => i

/-- The `st_size` of a resolved object (directories report a block size). -/
def resSize : ResNode → Nat
  | .rfile _ c _ _ => c.length
  | .rdir _ => 4096

/-- The `st_mtime` of a resolved object. -/
def resMtime : ResNode → Nat
  | .rfile _ _ m _ => m
  | .rdir _ => 0

/-- Whether a resolved object is a regular file (`S_IFMT == S_IFREG`). -/
def resIsReg : ResNode → Bool
  | .rfile _ _ _ _ => true
  | .rdir _ => false

/-- `os.path.exists`: `True` exactly when `os.stat` succeeds; any `OSError`
(missing path, permission denial, symlink loop) yields `False`. -/
def os_path_exists (fs : FS) (p : String) : Bool :=
  match os_stat fs p with
  | .ok _ => true
  | .error _ => false

/-- `os.path.isdir`: follows symlinks; `False` on any `OSError`. -/
def os_path_isdir (fs : FS) (p : String) : Bool :=
  match os_stat fs p with
  | .ok (.rdir _) => true
  | _ => false

/-- `os.path.getsize`: the `st_size` of `os.stat`, propagating its errors. -/
def os_path_getsize (fs : FS) (p : String) : Except Err Nat :=
  match os_stat fs p with
  | .error e => .error e
  | .ok s => .ok (resSize s)

/-- `os.path.islink`: an `lstat`-style test that never follows the link and
returns `False` both for a missing path and on any `OSError`. -/
def os_path_islink (fs : FS) (p : String) : Bool :=
  match lookupFS fs p with
  | some (.symlink _) => true
  | _ => false

/-- `os.path.samefile`: stats both paths (following symlinks) and compares
the filesystem identities; a failing `stat` propagates. -/
def os_path_samefile (fs : FS) (p q : String) : Except Err Bool :=
  match os_stat fs p with
  | .error e => .error e
  | .ok s1 =>
    match os_stat fs q with
    | .error e => .error e
    | .ok s2 => .ok (resIno s1 == resIno s2)

/-- `open(path, "rb")` followed by reading the whole content: raises
`FileNotFoundError`, `IsADirectoryError` or `PermissionError` as appropriate. -/
def open_rb (fs : FS) (p : String) : Except Err (List Nat) :=
  match os_stat fs p with
  | .error e => .error e
  | .ok (.rdir _) => .error .isADirectory
  | .ok (.rfile _ c _ r) => if r then .ok c else .error .permissionDenied

/-- `mmap.mmap(fd, 0, access=ACCESS_READ)`: mapping a whole file; CPython
raises `ValueError` ("cannot mmap an empty file") when the file is empty. -/
def mmap_full (content : List Nat) : Except Err (List Nat) :=
  if content.length = 0 then .error .valueError else .ok content

/-! ### Hex encoding and the `hashlib` digests

`hashlib.md5(...).hexdigest()` / `hashlib.sha1(...).hexdigest()` are embedded
as the standard MD5 / SHA-1 algorithms over byte lists, followed by lowercase
hex formatting of the 16/20 digest bytes. -/

/-- The lowercase hex digit of a nibble: `0`–`9` then `a`–`f`. -/
def hexDigitChar (n : Nat) : Char :=
  if n < 10 then Char.ofNat (48 + n) else Char.ofNat (87 + n)

/-- The two lowercase hex characters of one byte (`"%02x"` formatting). -/
def hexByte (b : Nat) : List Char :=
  [hexDigitChar (b / 16 % 16), hexDigitChar (b % 16)]

/-- Lowercase hex string of a byte sequence, as `hexdigest` returns it. -/
def hexEncode (bs : List Nat) : String :=
  String.mk ((bs.map hexByte).flatten)

/-- Whether a character is a lowercase hexadecimal digit. -/
def isLowerHexChar (c : Char) : Bool :=
  (decide ('0' ≤ c) && decide (c ≤ '9')) || (decide ('a' ≤ c) && decide (c ≤ 'f'))

/-- Whether every character of a string is a lowercase hexadecimal digit. -/
def isLowerHexString (s : String) : Bool :=
  s.data.all isLowerHexChar

/-- Truncation to a 32-bit word. -/
def w32 (n : Nat) : Nat := n % 4294967296

/-- Bitwise complement within 32 bits. -/
def not32 (n : Nat) : Nat := n ^^^ 4294967295

/-- 32-bit left rotation (the argument is expected to be `< 2^32`). -/
def rotl32 (x s : Nat) : Nat :=
  w32 (x <<< s) ||| (x >>> (32 - s))

/-- A little-endian 32-bit word from four bytes. -/
def leWord (b0 b1 b2 b3 : Nat) : Nat :=
  b0 + b1 * 256 + b2 * 65536 + b3 * 16777216

/-- Bytes to little-endian 32-bit words (ignoring a trailing partial group,
which never occurs on padded input). -/
def toWordsLE : List Nat → List Nat
  | b0 :: b1 :: b2 :: b3 :: rest => leWord b0 b1 b2 b3 :: toWordsLE rest
  | _ => []

/-- Bytes to big-endian 32-bit words. -/
def toWordsBE : List Nat → List Nat
  | b0 :: b1 :: b2 :: b3 :: rest => leWord b3 b2 b1 b0 :: toWordsBE rest
  | _ => []

/-- The four little-endian bytes of a 32-bit word. -/
def wordBytesLE (w : Nat) : List Nat :=
  [w % 256, w / 256 % 256, w / 65536 % 256, w / 16777216 % 256]

/-- The four big-endian bytes of a 32-bit word. -/
def wordBytesBE (w : Nat) : List Nat :=
  [w / 16777216 % 256, w / 65536 % 256, w / 256 % 256, w % 256]

/-- The eight little-endian bytes of a 64-bit length field. -/
def len8LE (n : Nat) : List Nat :=
  wordBytesLE (n % 4294967296) ++ wordBytesLE (n / 4294967296)

/-- The eight big-endian bytes of a 64-bit length field. -/
def len8BE (n : Nat) : List Nat :=
  wordBytesBE (n / 4294967296) ++ wordBytesBE (n % 4294967296)

/-- Zero padding bringing `len + 1` message bytes up to 56 mod 64. -/
def padZeros (len : Nat) : List Nat :=
  List.replicate ((119 - len % 64) % 64) 0

/-- Merkle–Damgård padding with a little-endian bit length (MD5). -/
def md5Pad (msg : List Nat) : List Nat :=
  msg ++ 128 :: (padZeros msg.length ++ len8LE (msg.length * 8))

/-- Merkle–Damgård padding with a big-endian bit length (SHA-1). -/
def sha1Pad (msg : List Nat) : List Nat :=
  msg ++ 128 :: (padZeros msg.length ++ len8BE (msg.length * 8))

/-- MD5 per-round left-rotation amounts. -/
def md5S : List Nat :=
  [7, 12, 17, 22, 7, 12, 17, 22, 7, 12, 17, 22, 7, 12, 17, 22,
   5, 9, 14, 20, 5, 9, 14, 20, 5, 9, 14, 20, 5, 9, 14, 20,
   4, 11, 16, 23, 4, 11, 16, 23, 4, 11, 16, 23, 4, 11, 16, 23,
   6, 10, 15, 21, 6, 10, 15, 21, 6, 10, 15, 21, 6, 10, 15, 21]

/-- MD5 per-round additive constants. -/
def md5K : List Nat :=
  [0xd76aa478, 0xe8c7b756, 0x242070db, 0xc1bdceee,
   0xf57c0faf, 0x4787c62a, 0xa8304613, 0xfd469501,
   0x698098d8, 0x8b44f7af, 0xffff5bb1, 0x895cd7be,
   0x6b901122, 0xfd987193, 0xa679438e, 0x49b40821,
   0xf61e2562, 0xc040b340, 0x265e5a51, 0xe9b6c7aa,
   0xd62f105d, 0x02441453, 0xd8a1e681, 0xe7d3fbc8,
   0x21e1cde6, 0xc33707d6, 0xf4d50d87, 0x455a14ed,
   0xa9e3e905, 0xfcefa3f8, 0x676f02d9, 0x8d2a4c8a,
   0xfffa3942, 0x8771f681, 0x6d9d6122, 0xfde5380c,
   0xa4beea44, 0x4bdecfa9, 0xf6bb4b60, 0xbebfbc70,
   0x289b7ec6, 0xeaa127fa, 0xd4ef3085, 0x04881d05,
   0xd9d4d039, 0xe6db99e5, 0x1fa27cf8, 0xc4ac5665,
   0xf4292244, 0x432aff97, 0xab9423a7, 0xfc93a039,
   0x655b59c3, 0x8f0ccc92, 0xffeff47d, 0x85845dd1,
   0x6fa87e4f, 0xfe2ce6e0, 0xa3014314, 0x4e0811a1,
   0xf7537e82, 0xbd3af235, 0x2ad7d2bb, 0xeb86d391]

/-- One MD5 round applied to the running state. -/
def md5Step (M : List Nat) (st : Nat × Nat × Nat × Nat) (i : Nat) :
    Nat × Nat × Nat × Nat :=
  match st with
  | (a, b, c, d) =>
    let fg : Nat × Nat :=
      if i < 16 then ((b &&& c) ||| (not32 b &&& d), i)
      else if i < 32 then ((d &&& b) ||| (not32 d &&& c), (5 * i + 1) % 16)
      else if i < 48 then (b ^^^ c ^^^ d, (3 * i + 5) % 16)
      else (c ^^^ (b ||| not32 d), 7 * i % 16)
    let f := w32 (fg.1 + a + md5K.getD i 0 + M.getD fg.2 0)
    (d, w32 (b + rotl32 f (md5S.getD i 0)), b, c)

/-- One 64-byte MD5 block folded into the state. -/
def md5Block (st : Nat × Nat × Nat × Nat) (block : List Nat) :
    Nat × Nat × Nat × Nat :=
  let M := toWordsLE block
  match st, (List.range 64).foldl (md5Step M) st with
  | (a0, b0, c0, d0), (a, b, c, d) =>
    (w32 (a0 + a), w32 (b0 + b), w32 (c0 + c), w32 (d0 + d))

/-- All 64-byte blocks folded into the state (fuel-bounded recursion). -/
def md5Blocks : Nat → Nat × Nat × Nat × Nat → List Nat → Nat × Nat × Nat × Nat
  | 0, st, _ => st
  | fuel + 1, st, bytes =>
    match bytes with
    | [] => st
    | _ => md5Blocks fuel (md5Block st (bytes.take 64)) (bytes.drop 64)

/-- The 16 MD5 digest bytes of a byte sequence. -/
def md5Bytes (msg : List Nat) : List Nat :=
  let padded := md5Pad msg
  match md5Blocks (padded.length / 64 + 1)
      (0x67452301, 0xefcdab89, 0x98badcfe, 0x10325476) padded with
  | (a, b, c, d) => wordBytesLE a ++ wordBytesLE b ++ wordBytesLE c ++ wordBytesLE d

/-- `hashlib.md5(data).hexdigest()`. -/
def md5_hexdigest (msg : List Nat) : String := hexEncode (md5Bytes msg)

/-- The SHA-1 round function. -/
def sha1F (i b c d : Nat) : Nat :=
  if i < 20 then (b &&& c) ||| (not32 b &&& d)
  else if i < 40 then b ^^^ c ^^^ d
  else if i < 60 then (b &&& c) ||| (b &&& d) ||| (c &&& d)
  else b ^^^ c ^^^ d

/-- The SHA-1 round constants. -/
def sha1K (i : Nat) : Nat :=
  if i < 20 then 0x5a827999
  else if i < 40 then 0x6ed9eba1
  else if i < 60 then 0x8f1bbcdc
  else 0xca62c1d6

/-- One step of the SHA-1 message-schedule extension. -/
def sha1Extend (w : Array Nat) (i : Nat) : Array Nat :=
  w.push (rotl32 ((w.getD (i - 3) 0) ^^^ (w.getD (i - 8) 0) ^^^
    (w.getD (i - 14) 0) ^^^ (w.getD (i - 16) 0)) 1)

/-- One SHA-1 round applied to the running state. -/
def sha1Step (w : Array Nat) (st : Nat × Nat × Nat × Nat × Nat) (i : Nat) :
    Nat × Nat × Nat × Nat × Nat :=
  match st with
  | (a, b, c, d, e) =>
    let temp := w32 (rotl32 a 5 + sha1F i b c d + e + sha1K i + w.getD i 0)
    (temp, a, rotl32 b 30, c, d)

/-- One 64-byte SHA-1 block folded into the state. -/
def sha1Block (st : Nat × Nat × Nat × Nat × Nat) (block : List Nat) :
    Nat × Nat × Nat × Nat × Nat :=
  let w0 := (toWordsBE block).toArray
  let w := (List.range 64).foldl (fun arr j => sha1Extend arr (j + 16)) w0
  match st, (List.range 80).foldl (sha1Step w) st with
  | (a0, b0, c0, d0, e0), (a, b, c, d, e) =>
    (w32 (a0 + a), w32 (b0 + b), w32 (c0 + c), w32 (d0 + d), w32 (e0 + e))

/-- All 64-byte blocks folded into the SHA-1 state (fuel-bounded). -/
def sha1Blocks :
    Nat → Nat × Nat × Nat × Nat × Nat → List Nat → Nat × Nat × Nat × Nat × Nat
  | 0, st, _ => st
  | fuel + 1, st, bytes =>
    match bytes with
    | [] => st
    | _ => sha1Blocks fuel (sha1Block st (bytes.take 64)) (bytes.drop 64)

/-- The 20 SHA-1 digest bytes of a byte sequence. -/
def sha1Bytes (msg : List Nat) : List Nat :=
  let padded := sha1Pad msg
  match sha1Blocks (padded.length / 64 + 1)
      (0x67452301, 0xefcdab89, 0x98badcfe, 0x10325476, 0xc3d2e1f0) padded with
  | (a, b, c, d, e) =>
    wordBytesBE a ++ wordBytesBE b ++ wordBytesBE c ++ wordBytesBE d ++ wordBytesBE e

/-- `hashlib.sha1(data).hexdigest()`. -/
def sha1_hexdigest (msg : List Nat) : String := hexEncode (sha1Bytes msg)

/-! ### The platform environment and `is_fips_enabled` -/

/-- The platform families distinguished by `sys.platform` tests. -/
inductive Platform
  | linux
  | darwin
  | win32
  | other
  deriving DecidableEq

/-- The state of the platform probes `is_fips_enabled` consults.
`linuxFipsFile` is the outcome of `open('/proc/sys/crypto/fips_enabled').read()`;
`darwinGrepOut` is the `stdout` of the `subprocess.run` grep call (an error
standing for any exception the call raises); `winregAvailable` is whether
`import winreg` succeeds; `winFipsValue` is the outcome of
`OpenKey` + `QueryValueEx(key, "Enabled")`. -/
structure Env where
  platform : Platform
  linuxFipsFile : Except Err String
  darwinGrepOut : Except Err String
  winregAvailable : Bool
  winFipsValue : Except Err Nat
  deriving DecidableEq

/-- `is_fips_enabled()`.  On Linux only `FileNotFoundError` is caught; on
macOS every exception is caught; on Windows `ImportError`,
`FileNotFoundError` and `PermissionError` are caught; any other exception
propagates (an `Except.error`). -/
def is_fips_enabled (env : Env) : Except Err Bool :=
  match env.platform with
  | .linux =>
    match env.linuxFipsFile with
    | .ok s => .ok (s.trim == "1")
    | .error .fileNotFound => .ok false
    | .error e => .error e
  | .darwin =>
    match env.darwinGrepOut with
    | .ok out => .ok (decide (0 < out.trim.length))
    | .error _ => .ok false
  | .win32 =>
    if env.winregAvailable then
      match env.winFipsValue with
      | .ok v => .ok (v != 0)
      | .error .fileNotFound => .ok false
      | .error .permissionDenied => .ok false
      | .error e => .error e
    else .ok false
  | .other => .ok false

/-! ### `get_hashes` -/

/-- The dictionary `get_hashes` returns: the algorithm-to-digest entries in
insertion order, plus the `fips_mode` flag entry. -/
structure HashDict where
  entries : List (String × String)
  fips_mode : Bool
  deriving DecidableEq

/-- `get_hashes(filepath)`: checks FIPS mode, opens the file, memory-maps it
whole, and returns SHA-1 only (FIPS) or MD5 and SHA-1. -/
def get_hashes (env : Env) (fs : FS) (filepath : String) : Except Err HashDict :=
  match is_fips_enabled env with
  | .error e => .error e
  | .ok fips_mode =>
    match open_rb fs filepath with
    | .error e => .error e
    | .ok content =>
      match mmap_full content with
      | .error e => .error e
      | .ok mm =>
        if fips_mode then
          .ok ⟨[("sha1", sha1_hexdigest mm)], true⟩
        else
          .ok ⟨[("md5", md5_hexdigest mm), ("sha1", sha1_hexdigest mm)], false⟩

/-! ### `file_size_compare` -/

/-- `abs(size1 - size2)` over Python integers. -/
def pyAbsDiff (a b : Nat) : Nat := ((a : Int) - (b : Int)).natAbs

/-- The heterogeneous value `file_size_compare` returns: the size tuple, a
`{"error": msg}` dictionary, or `None`. -/
inductive SizeRet
  | tup (size1 size2 diff : Nat) (same : Bool)
  | errDict (msg : String)
  | noneV
  deriving DecidableEq

/-- The `try`-block body of `file_size_compare`: existence check (only when
*neither* path exists), directory check, then two `os.path.getsize` calls. -/
def file_size_compare_body (fs : FS) (file1 file2 : String) : Except Err SizeRet :=
  if !os_path_exists fs file1 && !os_path_exists fs file2 then
    .ok (.errDict ("One of both of the files do not exist"))
  else if os_path_isdir fs file1 || os_path_isdir fs file2 then
    .ok (.errDict ("Cannot compare directory sizes"))
  else
    match os_path_getsize fs file1 with
    | .error e => .error e
    | .ok size1 =>
      match os_path_getsize fs file2 with
      | .error e => .error e
      | .ok size2 => .ok (.tup size1 size2 (pyAbsDiff size1 size2) (size1 == size2))

/-- `file_size_compare(file1, file2)`: the body above run under
`try ... except PermissionError: return` (a caught denial yields `None`,
every other exception propagates). -/
def file_size_compare (fs : FS) (file1 file2 : String) : Except Err SizeRet :=
  match file_size_compare_body fs file1 file2 with
  | .error .permissionDenied => .ok .noneV
  | r => r

/-! ### `filecmp.cmp` and `compare_files` -/

/-- `filecmp._sig`: `(S_IFMT(st.st_mode), st.st_size, st.st_mtime)`, the file
type encoded as a numeric tag. -/
def file_sig (s : ResNode) : Nat × Nat × Nat :=
  ((if resIsReg s then 32768 else 16384), resSize s, resMtime s)

/-- `filecmp._do_cmp`: reads both files fully and compares the bytes. -/
def do_cmp (fs : FS) (f1 f2 : String) : Except Err Bool :=
  match open_rb fs f1 with
  | .error e => .error e
  | .ok b1 =>
    match open_rb fs f2 with
    | .error e => .error e
    | .ok b2 => .ok (b1 == b2)

/-- `filecmp.cmp(f1, f2, shallow)`: stats both files; non-regular files
compare unequal; in shallow mode equal signatures short-circuit to `True`;
differing sizes short-circuit to `False`; otherwise the contents are read and
compared (the result cache is transparent on an immutable filesystem). -/
def filecmp_cmp (fs : FS) (f1 f2 : String) (shallow : Bool) : Except Err Bool :=
  match os_stat fs f1 with
  | .error e => .error e
  | .ok s1 =>
    match os_stat fs f2 with
    | .error e => .error e
    | .ok s2 =>
      if !(resIsReg s1 && resIsReg s2) then .ok false
      else if shallow && (file_sig s1 == file_sig s2) then .ok true
      else if resSize s1 != resSize s2 then .ok false
      else do_cmp fs f1 f2

/-- `compare_files(file1, file2, shallow)`: delegates to `filecmp.cmp` and
returns its result (the printed report line is presentation). -/
def compare_files (fs : FS) (file1 file2 : String) (shallow : Bool) :
    Except Err Bool :=
  filecmp_cmp fs file1 file2 shallow

/-- `same_file(file1, file2)`: delegates to `os.path.samefile`. -/
def same_file (fs : FS) (file1 file2 : String) : Except Err Bool :=
  os_path_samefile fs file1 file2

/-! ### `main` -/

/-- The parsed optional flags of the command line. -/
structure Args where
  hash : Bool
  size : Bool
  compare : Bool
  symlink : Bool
  deriving DecidableEq

/-- One line of `main`'s console report (the divider width being a
presentation detail, a divider is one opaque item). -/
inductive OutItem
  | divider
  | fipsLine (fips : Bool)
  | hashLine (alg : String) (path : String) (digest : String)
  | sizeLine (path : String) (bytes : Nat)
  | sizeDiffLine (diff : Nat)
  | sameSizeLine (same : Bool)
  | byteCompareLine (shallow : Bool) (result : Bool)
  | islinkLine (path : String) (link : Bool)
  | samefileLine (same : Bool)
  deriving DecidableEq

/-- A dictionary subscript `d[alg]` rendered as a report line; a missing key
raises `KeyError`. -/
def dictLine (d : List (String × String)) (alg path : String) :
    Except Err OutItem :=
  match List.lookup alg d with
  | none => .error .keyError
  | some v => .ok (.hashLine alg path v)

/-- Emits report lines in order, stopping at the first raised exception. -/
def emitSeq (acc : List OutItem) : List (Except Err OutItem) →
    List OutItem × Option Err
  | [] => (acc, none)
  | .error e :: _ => (acc, some e)
  | .ok o :: rest => emitSeq (acc ++ [o]) rest

/-- The hash axis of `main`: divider, both `get_hashes` calls, the FIPS line,
the MD5 lines when not in FIPS mode, then the SHA-1 lines. -/
def hashAxis (env : Env) (fs : FS) (file1 file2 : String) :
    List OutItem × Option Err :=
  match get_hashes env fs file1 with
  | .error e => ([.divider], some e)
  | .ok h1 =>
    match get_hashes env fs file2 with
    | .error e => ([.divider], some e)
    | .ok h2 =>
      emitSeq [.divider, .fipsLine h1.fips_mode]
        ((if !h1.fips_mode then
            [dictLine h1.entries ("md5") file1, dictLine h2.entries ("md5") file2]
          else []) ++
         [dictLine h1.entries ("sha1") file1, dictLine h2.entries ("sha1") file2])

/-- The size axis of `main`: divider, `file_size_compare`, then the four
subscript lines — subscripting the error dictionary raises `KeyError` and
subscripting `None` raises `TypeError`. -/
def sizeAxis (fs : FS) (file1 file2 : String) : List OutItem × Option Err :=
  match file_size_compare fs file1 file2 with
  | .error e => ([.divider], some e)
  | .ok (.tup s1 s2 d same) =>
    ([.divider, .sizeLine file1 s1, .sizeLine file2 s2, .sizeDiffLine d,
      .sameSizeLine same], none)
  | .ok (.errDict _) => ([.divider], some .keyError)
  | .ok .noneV => ([.divider], some .typeError)

/-- The content axis of `main`: divider, then the shallow and the deep
comparison in that order. -/
def compareAxis (fs : FS) (file1 file2 : String) : List OutItem × Option Err :=
  match compare_files fs file1 file2 true with
  | .error e => ([.divider], some e)
  | .ok b1 =>
    match compare_files fs file1 file2 false with
    | .error e => ([.divider, .byteCompareLine true b1], some e)
    | .ok b2 =>
      ([.divider, .byteCompareLine true b1, .byteCompareLine false b2], none)

/-- The symlink axis of `main`: divider, the two `os.path.islink` lines, then
the `same_file` line. -/
def symlinkAxis (fs : FS) (file1 file2 : String) : List OutItem × Option Err :=
  let base := [OutItem.divider, .islinkLine file1 (os_path_islink fs file1),
    .islinkLine file2 (os_path_islink fs file2)]
  match same_file fs file1 file2 with
  | .error e => (base, some e)
  | .ok b => (base ++ [.samefileLine b], none)

/-- `main()`: runs the requested axes in order (all of them when no flag is
given); an exception raised inside one axis propagates and aborts the
remaining axes.  The result is the emitted report and the escaped exception,
if any. -/
def main (env : Env) (fs : FS) (args : Args) (file1 file2 : String) :
    List OutItem × Option Err :=
  let printAll := !(args.hash || args.size || args.compare || args.symlink)
  match (if args.hash || printAll then hashAxis env fs file1 file2
         else ([], none)) with
  | (o1, some e) => (o1, some e)
  | (o1, none) =>
    match (if args.size || printAll then sizeAxis fs file1 file2
           else ([], none)) with
    | (o2, some e) => (o1 ++ o2, some e)
    | (o2, none) =>
      match (if args.compare || printAll then compareAxis fs file1 file2
             else ([], none)) with
      | (o3, some e) => (o1 ++ o2 ++ o3, some e)
      | (o3, none) =>
        match (if args.symlink || printAll then symlinkAxis fs file1 file2
               else ([], none)) with
        | (o4, e4) => (o1 ++ o2 ++ o3 ++ o4, e4)

/-! ### Helper lemmas about the filesystem primitives -/

theorem os_stat_reg (fs : FS) (p : String) (i : Nat) (c : List Nat) (m : Nat)
    (r : Bool) (h : lookupFS fs p = some (.reg i c m r)) :
    os_stat fs p = .ok (.rfile i c m r) := by
  simp [os_stat, resolve, h]

theorem os_stat_dir_node (fs : FS) (p : String) (i : Nat)
    (h : lookupFS fs p = some (.dir i)) : os_stat fs p = .ok (.rdir i) := by
  simp [os_stat, resolve, h]

theorem os_stat_missing (fs : FS) (p : String) (h : lookupFS fs p = none) :
    os_stat fs p = .error .fileNotFound := by
  simp [os_stat, resolve, h]

theorem os_stat_denied_node (fs : FS) (p : String)
    (h : lookupFS fs p = some .denied) :
    os_stat fs p = .error .permissionDenied := by
  simp [os_stat, resolve, h]

theorem open_rb_reg (fs : FS) (p : String) (i : Nat) (c : List Nat) (m : Nat)
    (h : lookupFS fs p = some (.reg i c m true)) : open_rb fs p = .ok c := by
  simp [open_rb, os_stat_reg fs p i c m true h]

theorem os_path_exists_true_iff (fs : FS) (p : String) :
    os_path_exists fs p = true ↔ ∃ s, os_stat fs p = .ok s := by
  unfold os_path_exists
  cases h : os_stat fs p <;> simp

theorem os_path_exists_false_iff (fs : FS) (p : String) :
    os_path_exists fs p = false ↔ ∃ e, os_stat fs p = .error e := by
  unfold os_path_exists
  cases h : os_stat fs p <;> simp

theorem os_path_isdir_of_stat_error (fs : FS) (p : String) (e : Err)
    (h : os_stat fs p = .error e) : os_path_isdir fs p = false := by
  simp [os_path_isdir, h]

theorem os_path_isdir_of_stat_rfile (fs : FS) (p : String) (i : Nat)
    (c : List Nat) (m : Nat) (r : Bool)
    (h : os_stat fs p = .ok (.rfile i c m r)) : os_path_isdir fs p = false := by
  simp [os_path_isdir, h]

theorem os_path_getsize_of_stat (fs : FS) (p : String) (s : ResNode)
    (h : os_stat fs p = .ok s) : os_path_getsize fs p = .ok (resSize s) := by
  simp [os_path_getsize, h]

theorem os_path_getsize_of_stat_error (fs : FS) (p : String) (e : Err)
    (h : os_stat fs p = .error e) : os_path_getsize fs p = .error e := by
  simp [os_path_getsize, h]

theorem os_path_isdir_true_iff (fs : FS) (p : String) :
    os_path_isdir fs p = true ↔ ∃ i, os_stat fs p = .ok (.rdir i) := by
  unfold os_path_isdir
  cases h : os_stat fs p with
  | error e => simp
  | ok s => cases s <;> simp

/-! ### Lifting through the `except PermissionError` handler -/

theorem fsc_of_body_ok (fs : FS) (f1 f2 : String) (r : SizeRet)
    (h : file_size_compare_body fs f1 f2 = .ok r) :
    file_size_compare fs f1 f2 = .ok r := by
  unfold file_size_compare
  rw [h]

theorem fsc_of_body_error (fs : FS) (f1 f2 : String) (e : Err)
    (h : file_size_compare_body fs f1 f2 = .error e)
    (hne : e ≠ .permissionDenied) : file_size_compare fs f1 f2 = .error e := by
  unfold file_size_compare
  rw [h]
  cases e <;> simp_all

theorem fsc_of_body_perm (fs : FS) (f1 f2 : String)
    (h : file_size_compare_body fs f1 f2 = .error .permissionDenied) :
    file_size_compare fs f1 f2 = .ok .noneV := by
  unfold file_size_compare
  rw [h]

/-! ### Helper lemmas about hex encoding -/

theorem hexDigitChar_lower : ∀ n < 16, isLowerHexChar (hexDigitChar n) = true := by
  decide

theorem hexByte_lower (b : Nat) : (hexByte b).all isLowerHexChar = true := by
  have h1 := hexDigitChar_lower (b / 16 % 16) (Nat.mod_lt _ (by decide))
  have h2 := hexDigitChar_lower (b % 16) (Nat.mod_lt _ (by decide))
  simp only [hexByte, List.all_cons, List.all_nil, Bool.and_true, Bool.and_eq_true]
  exact ⟨h1, h2⟩

theorem hexEncode_lower (bs : List Nat) : isLowerHexString (hexEncode bs) = true := by
  unfold isLowerHexString hexEncode
  rw [show (String.mk ((bs.map hexByte).flatten)).data = (bs.map hexByte).flatten from rfl]
  rw [List.all_eq_true]
  intro c hc
  rw [List.mem_flatten] at hc
  obtain ⟨l, hl, hcl⟩ := hc
  rw [List.mem_map] at hl
  obtain ⟨b, _, rfl⟩ := hl
  have hb := hexByte_lower b
  rw [List.all_eq_true] at hb
  exact hb c hcl

theorem md5_hexdigest_lower (msg : List Nat) :
    isLowerHexString (md5_hexdigest msg) = true :=
  hexEncode_lower (md5Bytes msg)

theorem sha1_hexdigest_lower (msg : List Nat) :
    isLowerHexString (sha1_hexdigest msg) = true :=
  hexEncode_lower (sha1Bytes msg)

/-! ### Concrete fixtures for witnesses and counterexamples -/

/-- An unremarkable non-Linux, non-macOS, non-Windows environment. -/
def envOther : Env :=
  ⟨.other, .error .fileNotFound, .error .fileNotFound, false, .error .fileNotFound⟩

/-- A Windows environment whose registry FIPS value is set and truthy. -/
def envWinFips : Env :=
  ⟨.win32, .error .fileNotFound, .error .fileNotFound, true, .ok 1⟩

/-- A Linux environment where reading the flag file is denied. -/
def envLinuxDenied : Env :=
  ⟨.linux, .error .permissionDenied, .error .fileNotFound, false, .error .fileNotFound⟩

/-- The concrete filesystem the witnesses run against: two same-size
same-content files with different timestamps (`a`, `b`, the second one a hard
link target via `hard`), a different-content file `c`, a directory `d`, an
empty file `empty`, a metadata-protected entry `pd` and a symlink `lnk`. -/
def fsMain : FS :=
  [("a", .reg 1 [88] 1000 true), ("b", .reg 2 [88] 2000 true),
   ("c", .reg 3 [89, 90] 3000 true), ("d", .dir 4), ("empty", .reg 5 [] 100 true),
   ("pd", .denied), ("lnk", .symlink ("a")), ("hard", .reg 1 [88] 1000 true)]

/-! ### C2 — `get_hashes` on a zero-byte file -/

/-- C2: the claim says `HashEngine.compute` on a zero-byte readable file
succeeds, short-circuiting to the digest of the empty byte sequence.  The
code has no such short-circuit: it always calls `mmap.mmap(fd, 0)`, which
raises `ValueError` on an empty file, so `get_hashes` raises instead of
returning.  This theorem evaluates the code at the failing input class. -/
theorem C2_empty_file_raises_value_error (env : Env) (fs : FS) (p : String)
    (b : Bool) (i m : Nat)
    (hfips : is_fips_enabled env = .ok b)
    (hp : lookupFS fs p = some (.reg i [] m true)) :
    get_hashes env fs p = .error .valueError := by
  simp [get_hashes, hfips, open_rb_reg fs p i [] m hp, mmap_full]

/-- Witness: the zero-byte file of the concrete fixture makes `get_hashes`
raise `ValueError`. -/
theorem C2_empty_file_raises_value_error_witness :
    get_hashes envOther fsMain ("empty") = .error .valueError :=
  C2_empty_file_raises_value_error envOther fsMain ("empty") false 5 100
    (by rfl) (by rfl)

/-! ### C6 — the size-comparison success path -/

/-- C6: for two existing, readable, non-directory files `file_size_compare`
returns both byte sizes, their absolute difference and an equality flag. -/
theorem C6_size_success (fs : FS) (f1 f2 : String) (i1 i2 m1 m2 : Nat)
    (c1 c2 : List Nat)
    (h1 : os_stat fs f1 = .ok (.rfile i1 c1 m1 true))
    (h2 : os_stat fs f2 = .ok (.rfile i2 c2 m2 true)) :
    file_size_compare fs f1 f2 =
      .ok (.tup c1.length c2.length (((c1.length : Int) - (c2.length : Int)).natAbs)
        (c1.length == c2.length)) := by
  have e1 : os_path_exists fs f1 = true :=
    (os_path_exists_true_iff fs f1).mpr ⟨_, h1⟩
  have d1 := os_path_isdir_of_stat_rfile fs f1 i1 c1 m1 true h1
  have d2 := os_path_isdir_of_stat_rfile fs f2 i2 c2 m2 true h2
  have g1 := os_path_getsize_of_stat fs f1 _ h1
  have g2 := os_path_getsize_of_stat fs f2 _ h2
  refine fsc_of_body_ok fs f1 f2 _ ?_
  simp only [file_size_compare_body, e1, d1, d2, g1, g2, resSize, pyAbsDiff,
    Bool.not_true, Bool.false_and, Bool.or_self, Bool.false_eq_true, if_false]

/-- Witness for C6 at the zero-byte file and the two-byte file of the
fixture. -/
theorem C6_size_success_witness :
    file_size_compare fsMain ("empty") ("c") =
      .ok (.tup (List.length ([] : List Nat)) (List.length [89, 90])
        (((List.length ([] : List Nat) : Int) - (List.length [89, 90] : Int)).natAbs)
        (List.length ([] : List Nat) == List.length [89, 90])) :=
  C6_size_success fsMain ("empty") ("c") 5 3 100 3000 [] [89, 90]
    (by rfl) (by rfl)

/-! ### C7 — the `HashSet` invariant -/

/-- C7: whenever `get_hashes` returns, a true `restricted_mode` flag comes
with exactly the single approved SHA-1 digest, a false flag with the MD5 and
SHA-1 pair, and every digest is a lowercase hexadecimal string. -/
theorem C7_hash_set_invariant (env : Env) (fs : FS) (p : String) (d : HashDict)
    (h : get_hashes env fs p = .ok d) :
    (d.fips_mode = true → d.entries.map Prod.fst = [("sha1")]) ∧
    (d.fips_mode = false →
      d.entries.map Prod.fst = [("md5"), ("sha1")] ∧ 2 ≤ d.entries.length) ∧
    (∀ kv ∈ d.entries, isLowerHexString kv.2 = true) := by
  unfold get_hashes at h
  split at h
  · exact absurd h (by simp)
  · split at h
    · exact absurd h (by simp)
    · split at h
      · exact absurd h (by simp)
      · split at h
        · cases h with
          | refl =>
            refine ⟨fun _ => rfl, fun hf => by simp at hf, ?_⟩
            intro kv hkv
            simp only [List.mem_cons, List.not_mem_nil, or_false] at hkv
            subst hkv
            exact sha1_hexdigest_lower _
        · cases h with
          | refl =>
            refine ⟨fun ht => by simp at ht, fun _ => ⟨rfl, by simp⟩, ?_⟩
            intro kv hkv
            simp only [List.mem_cons, List.not_mem_nil, or_false] at hkv
            rcases hkv with rfl | rfl
            · exact md5_hexdigest_lower _
            · exact sha1_hexdigest_lower _

/-- Witness for C7: one unrestricted and one restricted concrete run. -/
theorem C7_hash_set_invariant_witness :
    ((⟨[("md5", md5_hexdigest [88]), ("sha1", sha1_hexdigest [88])], false⟩ :
        HashDict).fips_mode = false →
      (⟨[("md5", md5_hexdigest [88]), ("sha1", sha1_hexdigest [88])], false⟩ :
        HashDict).entries.map Prod.fst = [("md5"), ("sha1")] ∧
      2 ≤ (⟨[("md5", md5_hexdigest [88]), ("sha1", sha1_hexdigest [88])], false⟩ :
        HashDict).entries.length) ∧
    ((⟨[("sha1", sha1_hexdigest [88])], true⟩ : HashDict).fips_mode = true →
      (⟨[("sha1", sha1_hexdigest [88])], true⟩ : HashDict).entries.map Prod.fst =
        [("sha1")]) :=
  ⟨(C7_hash_set_invariant envOther fsMain ("a")
      ⟨[("md5", md5_hexdigest [88]), ("sha1", sha1_hexdigest [88])], false⟩
      (by rfl)).2.1,
   (C7_hash_set_invariant envWinFips fsMain ("a")
      ⟨[("sha1", sha1_hexdigest [88])], true⟩ (by rfl)).1⟩

/-! ### C4 — shallow-mode content comparison -/

/-- C4 counterexample: two regular files with identical size and content but
different modification timestamps still compare equal in shallow mode,
because `filecmp.cmp` falls back to reading and comparing the bytes when the
metadata signatures differ — refuting both "equal only if identical
timestamp" and "never reads file bytes". -/
theorem C4_shallow_true_despite_mtime_counterexample :
    lookupFS fsMain ("a") = some (.reg 1 [88] 1000 true) ∧
    lookupFS fsMain ("b") = some (.reg 2 [88] 2000 true) ∧
    compare_files fsMain ("a") ("b") true = .ok true := by
  decide

/-- C4 amended: for regular readable files, shallow mode returns true
exactly when the `(size, mtime)` signatures agree, or — falling back to a
full byte comparison — when the contents are equal. -/
theorem C4_shallow_signature_or_content (fs : FS) (f1 f2 : String)
    (i1 i2 m1 m2 : Nat) (c1 c2 : List Nat)
    (h1 : lookupFS fs f1 = some (.reg i1 c1 m1 true))
    (h2 : lookupFS fs f2 = some (.reg i2 c2 m2 true)) :
    compare_files fs f1 f2 true =
      .ok ((c1.length == c2.length && m1 == m2) || c1 == c2) := by
  have s1 := os_stat_reg fs f1 i1 c1 m1 true h1
  have s2 := os_stat_reg fs f2 i2 c2 m2 true h2
  have o1 := open_rb_reg fs f1 i1 c1 m1 h1
  have o2 := open_rb_reg fs f2 i2 c2 m2 h2
  unfold compare_files filecmp_cmp
  rw [s1, s2]
  by_cases hlen : c1.length = c2.length
  · by_cases hm : m1 = m2
    · simp [file_sig, resIsReg, resSize, resMtime, hlen, hm]
    · have hsig : (file_sig (.rfile i1 c1 m1 true) == file_sig (.rfile i2 c2 m2 true)) = false := by
        simp [file_sig, resSize, resMtime, hm]
      simp [resIsReg, resSize, hsig, hlen, do_cmp, o1, o2, hm]
  · have hc : (c1 == c2) = false := by
      rw [beq_eq_false_iff_ne]
      intro hcc
      exact hlen (by rw [hcc])
    have hsig : (file_sig (.rfile i1 c1 m1 true) == file_sig (.rfile i2 c2 m2 true)) = false := by
      simp [file_sig, resSize, resMtime, hlen]
    simp [resIsReg, resSize, hsig, hlen, hc]

/-- Witness for the amended C4 at the fixture's equal-content files with
different timestamps. -/
theorem C4_shallow_signature_or_content_witness :
    compare_files fsMain ("a") ("b") true =
      .ok ((List.length [88] == List.length [88] && 1000 == 2000) ||
        ([88] : List Nat) == [88]) :=
  C4_shallow_signature_or_content fsMain ("a") ("b") 1 2 1000 2000 [88] [88]
    (by rfl) (by rfl)

/-! ### C8 — deep-mode content comparison and hash agreement -/

/-- C8: for regular readable files deep mode returns exactly byte equality
of the full contents, and identical contents give both a true deep
comparison and literally equal `get_hashes` results (hence equal digests for
every algorithm in the returned set). -/
theorem C8_deep_content_equality (env : Env) (fs : FS) (f1 f2 : String)
    (i1 i2 m1 m2 : Nat) (c1 c2 : List Nat)
    (h1 : lookupFS fs f1 = some (.reg i1 c1 m1 true))
    (h2 : lookupFS fs f2 = some (.reg i2 c2 m2 true)) :
    compare_files fs f1 f2 false = .ok (c1 == c2) ∧
    (c1 = c2 → compare_files fs f1 f2 false = .ok true ∧
      get_hashes env fs f1 = get_hashes env fs f2) := by
  have s1 := os_stat_reg fs f1 i1 c1 m1 true h1
  have s2 := os_stat_reg fs f2 i2 c2 m2 true h2
  have o1 := open_rb_reg fs f1 i1 c1 m1 h1
  have o2 := open_rb_reg fs f2 i2 c2 m2 h2
  have hdeep : compare_files fs f1 f2 false = .ok (c1 == c2) := by
    unfold compare_files filecmp_cmp
    rw [s1, s2]
    by_cases hlen : c1.length = c2.length
    · simp [resIsReg, resSize, do_cmp, o1, o2, hlen]
    · have hc : (c1 == c2) = false := by
        rw [beq_eq_false_iff_ne]
        intro hcc
        exact hlen (by rw [hcc])
      simp [resIsReg, resSize, hlen, hc]
  refine ⟨hdeep, fun hc => ⟨?_, ?_⟩⟩
  · rw [hdeep, hc]
    simp
  · subst hc
    unfold get_hashes
    rw [o1, o2]

/-- Witness for C8 at the fixture's hard-linked equal-content pair. -/
theorem C8_deep_content_equality_witness :
    (compare_files fsMain ("a") ("hard") false = .ok (([88] : List Nat) == [88])) ∧
    (([88] : List Nat) = [88] →
      compare_files fsMain ("a") ("hard") false = .ok true ∧
      get_hashes envOther fsMain ("a") = get_hashes envOther fsMain ("hard")) :=
  C8_deep_content_equality envOther fsMain ("a") ("hard") 1 1 1000 1000 [88] [88]
    (by rfl) (by rfl)

/-! ### C5 — the size-comparison error policy -/

theorem body_not_missing_msg (fs : FS) (f1 f2 : String)
    (hcond : (!os_path_exists fs f1 && !os_path_exists fs f2) = false) :
    file_size_compare_body fs f1 f2 ≠
      .ok (.errDict ("One of both of the files do not exist")) := by
  unfold file_size_compare_body
  simp only [hcond, Bool.false_eq_true, if_false]
  by_cases hd : (os_path_isdir fs f1 || os_path_isdir fs f2) = true
  · simp only [hd, if_true]
    intro h
    simp only [Except.ok.injEq, SizeRet.errDict.injEq] at h
    exact absurd h (by decide)
  · simp only [Bool.not_eq_true] at hd
    simp only [hd, Bool.false_eq_true, if_false]
    cases hg1 : os_path_getsize fs f1 with
    | error e => simp
    | ok s1 =>
      cases hg2 : os_path_getsize fs f2 with
      | error e => simp
      | ok s2 => simp

/-- C5: the error policy of `file_size_compare` — the structured not-found
dictionary is returned exactly when neither path exists; a directory on
either side yields the structured directory error; when exactly one path is
missing the existence check does not fire and the failing size lookup's
`FileNotFoundError` propagates; and a denied size lookup on either side is
caught and signalled distinctly as the absent (`None`) result. -/
theorem C5_size_error_policy (fs : FS) (f1 f2 : String) :
    (file_size_compare fs f1 f2 =
        .ok (.errDict ("One of both of the files do not exist")) ↔
      os_path_exists fs f1 = false ∧ os_path_exists fs f2 = false) ∧
    (os_path_isdir fs f1 = true ∨ os_path_isdir fs f2 = true →
      file_size_compare fs f1 f2 =
        .ok (.errDict ("Cannot compare directory sizes"))) ∧
    (os_stat fs f1 = .error .fileNotFound → os_path_exists fs f2 = true →
      os_path_isdir fs f2 = false →
      file_size_compare fs f1 f2 = .error .fileNotFound) ∧
    (os_path_exists fs f1 = true → os_stat fs f2 = .error .fileNotFound →
      os_path_isdir fs f1 = false →
      file_size_compare fs f1 f2 = .error .fileNotFound) ∧
    (os_path_exists fs f2 = true → os_path_isdir fs f2 = false →
      os_stat fs f1 = .error .permissionDenied →
      file_size_compare fs f1 f2 = .ok .noneV) ∧
    (os_path_exists fs f1 = true → os_path_isdir fs f1 = false →
      os_stat fs f2 = .error .permissionDenied →
      file_size_compare fs f1 f2 = .ok .noneV) := by
  refine ⟨⟨?_, ?_⟩, ?_, ?_, ?_, ?_, ?_⟩
  · -- only the both-missing branch produces the not-found dictionary
    intro h
    by_cases e1 : os_path_exists fs f1 = false
    · by_cases e2 : os_path_exists fs f2 = false
      · exact ⟨e1, e2⟩
      · exfalso
        simp only [Bool.not_eq_false] at e2
        have hcond : (!os_path_exists fs f1 && !os_path_exists fs f2) = false := by
          simp [e2]
        have hb : file_size_compare_body fs f1 f2 =
            .ok (.errDict ("One of both of the files do not exist")) := by
          unfold file_size_compare at h
          cases hbody : file_size_compare_body fs f1 f2 with
          | ok r =>
            rw [hbody] at h
            exact (h : (Except.ok r : Except Err SizeRet) = _)
          | error e => rw [hbody] at h; cases e <;> simp at h
        exact body_not_missing_msg fs f1 f2 hcond hb
    · exfalso
      simp only [Bool.not_eq_false] at e1
      have hcond : (!os_path_exists fs f1 && !os_path_exists fs f2) = false := by
        simp [e1]
      have hb : file_size_compare_body fs f1 f2 =
          .ok (.errDict ("One of both of the files do not exist")) := by
        unfold file_size_compare at h
        cases hbody : file_size_compare_body fs f1 f2 with
        | ok r =>
          rw [hbody] at h
          exact (h : (Except.ok r : Except Err SizeRet) = _)
        | error e => rw [hbody] at h; cases e <;> simp at h
      exact body_not_missing_msg fs f1 f2 hcond hb
  · -- both missing gives the not-found dictionary
    rintro ⟨e1, e2⟩
    refine fsc_of_body_ok fs f1 f2 _ ?_
    unfold file_size_compare_body
    simp [e1, e2]
  · -- a directory on either side gives the directory dictionary
    intro hd
    have hcond : (!os_path_exists fs f1 && !os_path_exists fs f2) = false := by
      rcases hd with hd | hd
      · obtain ⟨i, hs⟩ := (os_path_isdir_true_iff fs f1).mp hd
        have : os_path_exists fs f1 = true := (os_path_exists_true_iff fs f1).mpr ⟨_, hs⟩
        simp [this]
      · obtain ⟨i, hs⟩ := (os_path_isdir_true_iff fs f2).mp hd
        have : os_path_exists fs f2 = true := (os_path_exists_true_iff fs f2).mpr ⟨_, hs⟩
        simp [this]
    have hdor : (os_path_isdir fs f1 || os_path_isdir fs f2) = true := by
      rcases hd with hd | hd <;> simp [hd]
    refine fsc_of_body_ok fs f1 f2 _ ?_
    unfold file_size_compare_body
    simp only [hcond, Bool.false_eq_true, if_false, hdor, if_true]
  · -- f1 missing, f2 present: the existence check does not fire and the
    -- size lookup's FileNotFoundError propagates
    intro hs1 he2 hd2
    have hcond : (!os_path_exists fs f1 && !os_path_exists fs f2) = false := by
      simp [he2]
    have hd1 : os_path_isdir fs f1 = false := os_path_isdir_of_stat_error fs f1 _ hs1
    have hg1 : os_path_getsize fs f1 = .error .fileNotFound :=
      os_path_getsize_of_stat_error fs f1 _ hs1
    refine fsc_of_body_error fs f1 f2 _ ?_ (by decide)
    unfold file_size_compare_body
    simp only [hcond, Bool.false_eq_true, if_false, hd1, hd2, Bool.or_self, hg1]
  · -- f1 present, f2 missing: symmetric
    intro he1 hs2 hd1
    have hcond : (!os_path_exists fs f1 && !os_path_exists fs f2) = false := by
      simp [he1]
    have hd2 : os_path_isdir fs f2 = false := os_path_isdir_of_stat_error fs f2 _ hs2
    obtain ⟨s, hs1⟩ := (os_path_exists_true_iff fs f1).mp he1
    have hg1 : os_path_getsize fs f1 = .ok (resSize s) :=
      os_path_getsize_of_stat fs f1 _ hs1
    have hg2 : os_path_getsize fs f2 = .error .fileNotFound :=
      os_path_getsize_of_stat_error fs f2 _ hs2
    refine fsc_of_body_error fs f1 f2 _ ?_ (by decide)
    unfold file_size_compare_body
    simp only [hcond, Bool.false_eq_true, if_false, hd1, hd2, Bool.or_self, hg1, hg2]
  · -- denied stat on f1: caught, None returned
    intro he2 hd2 hs1
    have hcond : (!os_path_exists fs f1 && !os_path_exists fs f2) = false := by
      simp [he2]
    have hd1 : os_path_isdir fs f1 = false := os_path_isdir_of_stat_error fs f1 _ hs1
    have hg1 : os_path_getsize fs f1 = .error .permissionDenied :=
      os_path_getsize_of_stat_error fs f1 _ hs1
    refine fsc_of_body_perm fs f1 f2 ?_
    unfold file_size_compare_body
    simp only [hcond, Bool.false_eq_true, if_false, hd1, hd2, Bool.or_self, hg1]
  · -- denied stat on f2: caught, None returned
    intro he1 hd1 hs2
    have hcond : (!os_path_exists fs f1 && !os_path_exists fs f2) = false := by
      simp [he1]
    have hd2 : os_path_isdir fs f2 = false := os_path_isdir_of_stat_error fs f2 _ hs2
    obtain ⟨s, hs1⟩ := (os_path_exists_true_iff fs f1).mp he1
    have hg1 : os_path_getsize fs f1 = .ok (resSize s) :=
      os_path_getsize_of_stat fs f1 _ hs1
    have hg2 : os_path_getsize fs f2 = .error .permissionDenied :=
      os_path_getsize_of_stat_error fs f2 _ hs2
    refine fsc_of_body_perm fs f1 f2 ?_
    unfold file_size_compare_body
    simp only [hcond, Bool.false_eq_true, if_false, hd1, hd2, Bool.or_self, hg1, hg2]

/-- Witness for C5: the four error shapes at concrete fixture inputs. -/
theorem C5_size_error_policy_witness :
    file_size_compare fsMain ("ghost1") ("ghost2") =
      .ok (.errDict ("One of both of the files do not exist")) ∧
    file_size_compare fsMain ("d") ("a") =
      .ok (.errDict ("Cannot compare directory sizes")) ∧
    file_size_compare fsMain ("ghost1") ("a") = .error .fileNotFound ∧
    file_size_compare fsMain ("pd") ("a") = .ok .noneV :=
  ⟨(C5_size_error_policy fsMain ("ghost1") ("ghost2")).1.mpr
      ⟨by decide, by decide⟩,
   (C5_size_error_policy fsMain ("d") ("a")).2.1 (Or.inl (by decide)),
   (C5_size_error_policy fsMain ("ghost1") ("a")).2.2.1 (by decide) (by decide)
      (by decide),
   (C5_size_error_policy fsMain ("pd") ("a")).2.2.2.2.1 (by decide) (by decide)
      (by decide)⟩

/-! ### C1 — the facade does not isolate axis failures -/

/-- C1 counterexample: with the default all-axes selection, comparing a
nonexistent first path makes the hash axis raise `FileNotFoundError`, which
escapes `main` after only the first divider was printed — no per-axis error
is recorded and the remaining three axes never run. -/
theorem C1_facade_raises_counterexample :
    main envOther fsMain ⟨false, false, false, false⟩ ("ghost") ("a") =
      ([.divider], some .fileNotFound) := by
  decide

/-- C1 amended: `main` runs the selected axes sequentially with no per-axis
error isolation — an exception raised inside the first selected axis (here,
by `get_hashes` on the first path) propagates out of `main` and aborts every
remaining axis. -/
theorem C1_axis_failure_propagates (env : Env) (fs : FS) (args : Args)
    (file1 file2 : String) (e : Err)
    (hsel : args.hash = true ∨ args = ⟨false, false, false, false⟩)
    (herr : get_hashes env fs file1 = .error e) :
    main env fs args file1 file2 = ([.divider], some e) := by
  have hax : hashAxis env fs file1 file2 = ([.divider], some e) := by
    unfold hashAxis
    rw [herr]
  rcases hsel with h | h
  · simp only [main, h, Bool.true_or, if_true, hax]
  · subst h
    simp only [main, Bool.or_self, Bool.not_false, Bool.or_true, if_true, hax]

/-- Witness for the amended C1: requesting only the hash axis against a
missing first path aborts `main` with the escaped `FileNotFoundError`. -/
theorem C1_axis_failure_propagates_witness :
    main envOther fsMain ⟨true, false, false, false⟩ ("ghost") ("a") =
      ([.divider], some .fileNotFound) :=
  C1_axis_failure_propagates envOther fsMain ⟨true, false, false, false⟩
    ("ghost") ("a") .fileNotFound (Or.inl rfl) (by decide)

/-! ### C3 — the restricted-crypto probe -/

/-- C3 counterexample: on Linux, a `PermissionError` while reading the
crypto-policy flag file is not caught (only `FileNotFoundError` is), so
`is_fips_enabled` propagates the error instead of returning `False`. -/
theorem C3_linux_permission_error_propagates_counterexample :
    is_fips_enabled envLinuxDenied = .error .permissionDenied := by
  decide

/-- Modelled from the spec: the positive restricted-mode signals, per
platform — the Linux flag file trimming to "1", a macOS grep hit, a truthy
Windows registry value. -/
def fips_positive_signal (env : Env) : Prop :=
  match env.platform with
  | .linux => ∃ s, env.linuxFipsFile = .ok s ∧ s.trim = "1"
  | .darwin => ∃ s, env.darwinGrepOut = .ok s ∧ 0 < s.trim.length
  | .win32 => env.winregAvailable = true ∧ ∃ v, env.winFipsValue = .ok v ∧ v ≠ 0
  | .other => False

/-- The probe failures the code does *not* swallow: on Linux any reading
error other than a missing file, on Windows any registry error other than a
missing key/value or a permission denial. -/
def fips_probe_escape (env : Env) : Prop :=
  match env.platform with
  | .linux => ∃ e, env.linuxFipsFile = .error e ∧ e ≠ Err.fileNotFound
  | .win32 => env.winregAvailable = true ∧
      ∃ e, env.winFipsValue = .error e ∧ e ≠ Err.fileNotFound ∧
        e ≠ Err.permissionDenied
  | _ => False

/-- C3 amended: `is_fips_enabled` returns true exactly on a positive
platform detection, and it propagates an error exactly for the probe
failures it does not anticipate (Linux non-`FileNotFoundError` failures,
unexpected Windows registry errors); every other probe failure is swallowed
as "not restricted". -/
theorem C3_probe_swallowing_characterization (env : Env) :
    (is_fips_enabled env = .ok true ↔ fips_positive_signal env) ∧
    ((∃ e, is_fips_enabled env = .error e) ↔ fips_probe_escape env) := by
  obtain ⟨pf, lf, dg, wa, wv⟩ := env
  cases pf
  case linux =>
    cases lf with
    | ok s => simp [is_fips_enabled, fips_positive_signal, fips_probe_escape]
    | error e =>
      cases e <;> simp [is_fips_enabled, fips_positive_signal, fips_probe_escape]
  case darwin =>
    cases dg with
    | ok s => simp [is_fips_enabled, fips_positive_signal, fips_probe_escape]
    | error e => simp [is_fips_enabled, fips_positive_signal, fips_probe_escape]
  case win32 =>
    cases wa
    · simp [is_fips_enabled, fips_positive_signal, fips_probe_escape]
    · cases wv with
      | ok v => simp [is_fips_enabled, fips_positive_signal, fips_probe_escape]
      | error e =>
        cases e <;> simp [is_fips_enabled, fips_positive_signal, fips_probe_escape]
  case other =>
    simp [is_fips_enabled, fips_positive_signal, fips_probe_escape]

/-! ### C9 — identity is reflexive and captures hard links -/

/-- C9: inspecting an existing path against itself reports filesystem-entity
sameness (with the two symlink flags trivially equal), and two paths whose
`stat` identities agree — hard links — also report sameness. -/
theorem C9_identity_reflexive_and_hardlinks (fs : FS) (p a b : String)
    (s1 s2 : ResNode) :
    (os_path_exists fs p = true →
      same_file fs p p = .ok true ∧
      os_path_islink fs p = os_path_islink fs p) ∧
    (os_stat fs a = .ok s1 → os_stat fs b = .ok s2 → resIno s1 = resIno s2 →
      same_file fs a b = .ok true) := by
  constructor
  · intro hp
    obtain ⟨s, hs⟩ := (os_path_exists_true_iff fs p).mp hp
    refine ⟨?_, rfl⟩
    unfold same_file os_path_samefile
    rw [hs]
    simp
  · intro h1 h2 hi
    unfold same_file os_path_samefile
    rw [h1, h2]
    simp [hi]

/-- Witness for C9: the same path twice, and the fixture's hard-linked pair
of distinct paths sharing one identity. -/
theorem C9_identity_reflexive_and_hardlinks_witness :
    (same_file fsMain ("a") ("a") = .ok true ∧
      os_path_islink fsMain ("a") = os_path_islink fsMain ("a")) ∧
    same_file fsMain ("a") ("hard") = .ok true :=
  ⟨(C9_identity_reflexive_and_hardlinks fsMain ("a") ("a") ("hard")
      (.rfile 1 [88] 1000 true) (.rfile 1 [88] 1000 true)).1 (by decide),
   (C9_identity_reflexive_and_hardlinks fsMain ("a") ("a") ("hard")
      (.rfile 1 [88] 1000 true) (.rfile 1 [88] 1000 true)).2
      (by decide) (by decide) rfl⟩

/-! ### C10 — the symlink flags are total and printed first -/

/-- C10: `os.path.islink` is a total boolean test that reports false for a
nonexistent path, and the symlink axis emits both islink flag lines before
the sameness check runs, so the flags are produced even when `same_file`
raises. -/
theorem C10_islink_total_and_flags_first (fs : FS) (f1 f2 : String) :
    (lookupFS fs f1 = none → os_path_islink fs f1 = false) ∧
    (symlinkAxis fs f1 f2).1.take 3 =
      [.divider, .islinkLine f1 (os_path_islink fs f1),
       .islinkLine f2 (os_path_islink fs f2)] := by
  constructor
  · intro h
    simp [os_path_islink, h]
  · cases h : same_file fs f1 f2 with
    | error e => simp [symlinkAxis, h]
    | ok b => simp [symlinkAxis, h]

/-- Witness for C10: a missing path has a false symlink flag, and against a
missing second path the two flag lines are still the ones emitted first even
though the sameness check raises. -/
theorem C10_islink_total_and_flags_first_witness :
    os_path_islink fsMain ("ghost") = false ∧
    (symlinkAxis fsMain ("a") ("ghost")).1.take 3 =
      [.divider, .islinkLine ("a") (os_path_islink fsMain ("a")),
       .islinkLine ("ghost") (os_path_islink fsMain ("ghost"))] :=
  ⟨(C10_islink_total_and_flags_first fsMain ("ghost") ("a")).1 (by decide),
   (C10_islink_total_and_flags_first fsMain ("a") ("ghost")).2⟩

end FileCompare
